import Mathlib

/-!
Shallow embedding of the `cm4-fan-control-rs` fan controller (`src/main.rs`)
and proofs about its control loop, fan curve, change detection and
error handling.

Real-valued floating point arithmetic of the source is modelled over `ℝ`
(the fan-curve formulas), and the discrete change-detection logic over `ℤ`
duty bytes. Panics and process aborts are modelled as `Option.none`.
-/

namespace CM4Fan

/-! ### Configuration constants (from `src/main.rs`) -/

/-- Temperature below which the fan is stopped (`OFF_TEMP: f32 = 40.0`). -/
noncomputable def OFF_TEMP : ℝ := 40

/-- Temperature above which the fan starts (`MIN_TEMP: f32 = 45.0`). -/
noncomputable def MIN_TEMP : ℝ := 45

/-- Temperature above which the fan runs at full speed (`MAX_TEMP: f32 = 75.0`). -/
noncomputable def MAX_TEMP : ℝ := 75

/-- Fan-off percentage (`FAN_OFF: f32 = 0.0`). -/
noncomputable def FAN_OFF : ℝ := 0

/-- Lowest fan setting percentage (`FAN_LOW: f32 = 0.1`). -/
noncomputable def FAN_LOW : ℝ := 0.1

/-- Maximum fan setting percentage (`FAN_MAX: f32 = 1.0`). -/
noncomputable def FAN_MAX : ℝ := 1

/-- Speed gain per degree (`FAN_GAIN = (FAN_MAX - FAN_LOW) / (MAX_TEMP - MIN_TEMP)`). -/
noncomputable def FAN_GAIN : ℝ := (FAN_MAX - FAN_LOW) / (MAX_TEMP - MIN_TEMP)

/-- Maximum byte-level fan speed (`MAX_SPEED: u8 = 0xFF`). -/
def MAX_SPEED : ℤ := 255

/-! ### Temperature source (`get_cpu_temp`) -/

/-- The kinds of I/O error distinguished by the match in `get_cpu_temp` on
`e.kind()`: `PermissionDenied`, `NotFound`, and every other kind. -/
inductive IOKind where
  | permissionDenied
  | notFound
  | other
deriving DecidableEq

/-- Outcome of `std::fs::read_to_string` on the sensor file, as seen by
`get_cpu_temp`. A successful read is represented by the result of
`content.trim().parse::<f32>()` (`some q` when the trimmed content parses
as the number `q`, `none` when it does not parse); a failed read carries
its `IOKind`. -/
inductive SensorRead where
  | content (parsed : Option ℚ)
  | ioError (kind : IOKind)
deriving DecidableEq

/-- Embedding of `get_cpu_temp` (`src/main.rs` lines 65-79). A returned
value is `some t`; a panic (`PermissionDenied` or `NotFound`) is `none`.
On any other read error the code substitutes the text `"45000"`, which
parses to `45000`; on a parse failure it substitutes `45000.0` via
`unwrap_or`. The parsed value is divided by `1000`. -/
def get_cpu_temp : SensorRead → Option ℚ
  | .content parsed => some (parsed.getD 45000 / 1000)
  | .ioError .permissionDenied => none
  | .ioError .notFound => none
  | .ioError .other => some (45000 / 1000)

/-! ### Fan curve (`fan_curve`, `handle_fan_speed` percentage match) -/

/-- Embedding of `fan_curve` (`src/main.rs` lines 84-88):
`(0.5 * (1 - ((PI * temp) / 50).sin()) + (FAN_LOW + ((temp - MIN_TEMP).min(MAX_TEMP) * FAN_GAIN))) / 2`. -/
noncomputable def fan_curve (temp : ℝ) : ℝ :=
  (0.5 * (1 - Real.sin (Real.pi * temp / 50))
      + (FAN_LOW + min (temp - MIN_TEMP) MAX_TEMP * FAN_GAIN)) / 2

/-- The percentage selected by the `match cpu_temp` in `handle_fan_speed`
(`src/main.rs` lines 92-97). -/
noncomputable def duty_percentage (temp : ℝ) : ℝ :=
  if temp < OFF_TEMP then FAN_OFF
  else if temp < MIN_TEMP then FAN_LOW
  else if temp < MAX_TEMP then fan_curve temp
  else FAN_MAX

/-- The formula the specification gives for the middle branch: the average
of the cosine ease-in term `0.5 * (1 - sin (pi * t / 50))` and the linear
ramp `FAN_LOW + GAIN * min (t - MIN_TEMP) MAX_TEMP`. Written from the
spec wording, to be compared with `fan_curve` from the source. -/
noncomputable def duty_curve_spec (t : ℝ) : ℝ :=
  (0.5 * (1 - Real.sin (Real.pi * t / 50))
      + (FAN_LOW + FAN_GAIN * min (t - MIN_TEMP) MAX_TEMP)) / 2

/-- The Rust saturating `as u8` cast of a (non-NaN) `f32`, over `ℝ`:
truncation toward zero clamped to `[0, 255]`. For the non-negative inputs
produced here truncation is the floor. -/
noncomputable def rust_as_u8 (x : ℝ) : ℤ := max 0 (min MAX_SPEED ⌊x⌋)

/-- The byte-level duty computed by `handle_fan_speed` (`src/main.rs`
line 98): `(MAX_SPEED as f32 * fan_percentage) as u8`. -/
noncomputable def fan_speed (temp : ℝ) : ℤ :=
  rust_as_u8 ((MAX_SPEED : ℝ) * duty_percentage temp)

/-! ### Change detection and the control loop -/

/-- Result of one execution of the guarded-write section of
`handle_fan_speed` (`src/main.rs` lines 99-105): the `FAN_SPEED` state
after the call, whether a bus write was issued, and the returned value
(`some fs` for `Ok(fan_speed)`, `none` for the early `?` error return). -/
structure TickResult where
  state : ℤ
  wrote : Bool
  ret : Option ℤ
deriving DecidableEq

/-- Embedding of the locked compare-and-write section of `handle_fan_speed`
(`src/main.rs` lines 99-105), abstracted over the already-computed duty
byte `fs` and over whether the bus write succeeds (`busOk`). A write is
issued only when `old ≠ fs`; on a failed write the `?` operator returns
the error before `*old_speed = fan_speed` runs, so the state is unchanged. -/
def writeStep (fs old : ℤ) (busOk : Bool) : TickResult :=
  if old ≠ fs then
    if busOk then ⟨fs, true, some fs⟩ else ⟨old, true, none⟩
  else ⟨old, false, some fs⟩

/-- Embedding of `handle_fan_speed` (`src/main.rs` lines 91-106): compute
the duty byte from the temperature, then run the guarded write. -/
noncomputable def handle_fan_speed (cpu_temp : ℝ) (old : ℤ) (busOk : Bool) : TickResult :=
  writeStep (fan_speed cpu_temp) old busOk

/-- One iteration of the `loop` in `main` (`src/main.rs` lines 132-138):
read the temperature, then call `handle_fan_speed` with it. `none` models
a panic inside `get_cpu_temp` (no tick body runs). -/
noncomputable def tick (read : SensorRead) (old : ℤ) (busOk : Bool) : Option TickResult :=
  (get_cpu_temp read).map fun q => handle_fan_speed (q : ℝ) old busOk

/-- Observable log of a run of the loop in `main` over a list of computed duty
bytes (abstracting `get_cpu_temp` and the fan curve, with every bus write
succeeding): final `FAN_SPEED` state, the per-tick write flags, the values
actually written to the bus in order, and the duty values printed by the
unconditional `println!` (one status line per tick, `src/main.rs`
line 135). -/
structure RunLog where
  state : ℤ
  wroteFlags : List Bool
  written : List ℤ
  printed : List ℤ
deriving DecidableEq

/-- Run the loop in `main` (`src/main.rs` lines 132-138) over a list of computed
duty bytes, starting from `FAN_SPEED` state `s`, with every bus write
succeeding. Each tick runs `writeStep` and then prints one status line
reporting the computed duty. -/
def runDuties (s : ℤ) : List ℤ → RunLog
  | [] => ⟨s, [], [], []⟩
  | d :: rest =>
    let r := writeStep d s true
    let log := runDuties r.state rest
    ⟨log.state, r.wrote :: log.wroteFlags,
      (if r.wrote then [d] else []) ++ log.written,
      d :: log.printed⟩

/-! ### Basic facts about the constants and branches -/

/-- The gain constant evaluates to `3/100` per degree. -/
lemma FAN_GAIN_eq : FAN_GAIN = 3 / 100 := by
  rw [FAN_GAIN, FAN_MAX, FAN_LOW, MAX_TEMP, MIN_TEMP]
  norm_num

/-- Below `MAX_TEMP` the ramp `min` clamp is inactive. -/
lemma min_ramp_eq {t : ℝ} (h : t ≤ 120) : min (t - MIN_TEMP) MAX_TEMP = t - MIN_TEMP := by
  rw [MIN_TEMP, MAX_TEMP]
  exact min_eq_left (by linarith)

/-- Closed form of `fan_curve` with the clamp and the constants resolved. -/
lemma fan_curve_formula {t : ℝ} (h : t ≤ 120) :
    fan_curve t =
      (0.5 * (1 - Real.sin (Real.pi * t / 50)) + (1 / 10 + (t - 45) * (3 / 100))) / 2 := by
  rw [fan_curve, min_ramp_eq h, FAN_GAIN_eq, FAN_LOW, MIN_TEMP]
  norm_num

/-- On `t < 40` the percentage is `0` (the `FAN_OFF` branch). -/
lemma duty_eq_off {t : ℝ} (h : t < 40) : duty_percentage t = 0 := by
  have hp : t < OFF_TEMP := by rw [OFF_TEMP]; exact h
  rw [duty_percentage, if_pos hp, FAN_OFF]

/-- On `40 ≤ t < 45` the percentage is `0.1` (the `FAN_LOW` branch). -/
lemma duty_eq_low {t : ℝ} (h1 : 40 ≤ t) (h2 : t < 45) : duty_percentage t = 0.1 := by
  have hn : ¬t < OFF_TEMP := by rw [OFF_TEMP]; linarith
  have hp : t < MIN_TEMP := by rw [MIN_TEMP]; exact h2
  rw [duty_percentage, if_neg hn, if_pos hp, FAN_LOW]

/-- On `45 ≤ t < 75` the percentage is `fan_curve t`; in particular the
boundary `t = 45` takes the curve branch, not the floor. -/
lemma duty_eq_curve {t : ℝ} (h1 : 45 ≤ t) (h2 : t < 75) : duty_percentage t = fan_curve t := by
  have hn1 : ¬t < OFF_TEMP := by rw [OFF_TEMP]; linarith
  have hn2 : ¬t < MIN_TEMP := by rw [MIN_TEMP]; linarith
  have hp : t < MAX_TEMP := by rw [MAX_TEMP]; exact h2
  rw [duty_percentage, if_neg hn1, if_neg hn2, if_pos hp]

/-- On `75 ≤ t` the percentage is `1` (the `FAN_MAX` branch). -/
lemma duty_eq_max {t : ℝ} (h : 75 ≤ t) : duty_percentage t = 1 := by
  have hn1 : ¬t < OFF_TEMP := by rw [OFF_TEMP]; linarith
  have hn2 : ¬t < MIN_TEMP := by rw [MIN_TEMP]; linarith
  have hn3 : ¬t < MAX_TEMP := by rw [MAX_TEMP]; linarith
  rw [duty_percentage, if_neg hn1, if_neg hn2, if_neg hn3, FAN_MAX]

/-! ### Trigonometric estimates for the curve branch -/

/-- The sine is non-increasing on `[pi/2, pi + pi/2]` (via the cosine on
`[0, pi]`). -/
lemma sin_le_sin_of_mem (a b : ℝ) (ha : Real.pi / 2 ≤ a) (hab : a ≤ b)
    (hb : b ≤ Real.pi + Real.pi / 2) : Real.sin b ≤ Real.sin a := by
  have e : ∀ x : ℝ, Real.sin x = Real.cos (x - Real.pi / 2) := by
    intro x
    rw [show x - Real.pi / 2 = -(Real.pi / 2 - x) by ring, Real.cos_neg,
      Real.cos_pi_div_two_sub]
  rw [e a, e b]
  exact Real.cos_le_cos_of_nonneg_of_le_pi (by linarith) (by linarith) (by linarith)

/-- On `45 ≤ t ≤ 75` the angle `pi * t / 50` lies in `[pi/2, pi + pi/2]`. -/
lemma angle_mem {t : ℝ} (h1 : 45 ≤ t) (h2 : t ≤ 75) :
    Real.pi / 2 ≤ Real.pi * t / 50 ∧ Real.pi * t / 50 ≤ Real.pi + Real.pi / 2 := by
  have hp := Real.pi_pos
  constructor
  · nlinarith [mul_nonneg (by linarith : (0:ℝ) ≤ t - 25) hp.le]
  · nlinarith [mul_nonneg (by linarith : (0:ℝ) ≤ 75 - t) hp.le]

/-- On `45 ≤ t ≤ 75` the sine term is below `0.315`
(`sin (pi * t / 50) ≤ sin (9 pi / 10) = sin (pi / 10) < pi / 10 < 0.315`). -/
lemma sin_angle_lt {t : ℝ} (h1 : 45 ≤ t) (h2 : t ≤ 75) :
    Real.sin (Real.pi * t / 50) < 0.315 := by
  have hp := Real.pi_pos
  have h45 : Real.sin (Real.pi * t / 50) ≤ Real.sin (Real.pi * 45 / 50) := by
    apply sin_le_sin_of_mem _ _ (angle_mem (le_refl (45:ℝ)) (by norm_num)).1 _
      (angle_mem h1 h2).2
    nlinarith [mul_nonneg (by linarith : (0:ℝ) ≤ t - 45) hp.le]
  have e : Real.sin (Real.pi * 45 / 50) = Real.sin (Real.pi / 10) := by
    rw [show Real.pi * 45 / 50 = Real.pi - Real.pi / 10 by ring, Real.sin_pi_sub]
  have hlt : Real.sin (Real.pi / 10) < Real.pi / 10 := Real.sin_lt (by positivity)
  have hb : Real.pi / 10 < 0.315 := by
    have := Real.pi_lt_d2
    norm_num at this ⊢
    linarith
  rw [e] at h45
  linarith

/-- Lower bound of the curve branch: at least `FAN_LOW` on `[45, 75]`. -/
lemma fan_curve_lb {t : ℝ} (h1 : 45 ≤ t) (h2 : t ≤ 75) : 0.1 ≤ fan_curve t := by
  have hs := sin_angle_lt h1 h2
  rw [fan_curve_formula (by linarith)]
  norm_num at hs ⊢
  linarith

/-- Upper bound of the curve branch: at most `1` on `[45, 75]`. -/
lemma fan_curve_ub {t : ℝ} (_h1 : 45 ≤ t) (h2 : t ≤ 75) : fan_curve t ≤ 1 := by
  have hs := Real.neg_one_le_sin (Real.pi * t / 50)
  rw [fan_curve_formula (by linarith)]
  norm_num
  linarith

/-- The curve branch is monotone non-decreasing on `[45, 75]`. -/
lemma fan_curve_mono {t1 t2 : ℝ} (h1 : 45 ≤ t1) (h12 : t1 ≤ t2) (h2 : t2 ≤ 75) :
    fan_curve t1 ≤ fan_curve t2 := by
  have hp := Real.pi_pos
  have hs : Real.sin (Real.pi * t2 / 50) ≤ Real.sin (Real.pi * t1 / 50) := by
    apply sin_le_sin_of_mem _ _ (angle_mem h1 (h12.trans h2)).1 _ (angle_mem (h1.trans h12) h2).2
    nlinarith [mul_nonneg (by linarith : (0:ℝ) ≤ t2 - t1) hp.le]
  rw [fan_curve_formula (by linarith), fan_curve_formula (by linarith)]
  linarith

/-! ### Bounds and monotonicity of the full piecewise percentage -/

/-- The selected percentage is never negative. -/
lemma duty_nonneg (t : ℝ) : 0 ≤ duty_percentage t := by
  rcases lt_or_le t 40 with h | h
  · rw [duty_eq_off h]
  rcases lt_or_le t 45 with h2 | h2
  · rw [duty_eq_low h h2]; norm_num
  rcases lt_or_le t 75 with h3 | h3
  · rw [duty_eq_curve h2 h3]
    have := fan_curve_lb h2 h3.le
    norm_num at this
    linarith
  · rw [duty_eq_max h3]; norm_num

/-- The selected percentage never exceeds `1`. -/
lemma duty_le_one (t : ℝ) : duty_percentage t ≤ 1 := by
  rcases lt_or_le t 40 with h | h
  · rw [duty_eq_off h]; norm_num
  rcases lt_or_le t 45 with h2 | h2
  · rw [duty_eq_low h h2]; norm_num
  rcases lt_or_le t 75 with h3 | h3
  · rw [duty_eq_curve h2 h3]
    exact fan_curve_ub h2 h3.le
  · rw [duty_eq_max h3]

/-- The piecewise percentage is monotone non-decreasing over all of `ℝ`. -/
lemma duty_mono {t1 t2 : ℝ} (h : t1 ≤ t2) : duty_percentage t1 ≤ duty_percentage t2 := by
  rcases lt_or_le t2 40 with b1 | b1
  · rw [duty_eq_off (lt_of_le_of_lt h b1), duty_eq_off b1]
  rcases lt_or_le t2 45 with b2 | b2
  · rw [duty_eq_low b1 b2]
    rcases lt_or_le t1 40 with a1 | a1
    · rw [duty_eq_off a1]; norm_num
    · rw [duty_eq_low a1 (lt_of_le_of_lt h b2)]
  rcases lt_or_le t2 75 with b3 | b3
  · rw [duty_eq_curve b2 b3]
    have hlb := fan_curve_lb b2 b3.le
    norm_num at hlb
    rcases lt_or_le t1 40 with a1 | a1
    · rw [duty_eq_off a1]; linarith
    rcases lt_or_le t1 45 with a2 | a2
    · rw [duty_eq_low a1 a2]; norm_num; linarith
    · rw [duty_eq_curve a2 (lt_of_le_of_lt h b3)]
      exact fan_curve_mono a2 h b3.le
  · rw [duty_eq_max b3]
    exact duty_le_one t1

/-! ### The byte-level duty -/

/-- For the percentages this program produces, the saturating cast is the
plain floor of `255 * percentage`. -/
lemma fan_speed_eq_floor (t : ℝ) : fan_speed t = ⌊(255:ℝ) * duty_percentage t⌋ := by
  have hcast : ((MAX_SPEED : ℤ) : ℝ) = (255:ℝ) := by rw [MAX_SPEED]; norm_num
  have h0 : (0:ℝ) ≤ (255:ℝ) * duty_percentage t := by
    have := duty_nonneg t; linarith
  have h1 : (255:ℝ) * duty_percentage t ≤ 255 := by
    have := duty_le_one t; linarith
  have hf0 : (0:ℤ) ≤ ⌊(255:ℝ) * duty_percentage t⌋ := Int.floor_nonneg.mpr h0
  have hf255 : ⌊(255:ℝ) * duty_percentage t⌋ ≤ 255 := by
    have hm : ⌊(255:ℝ) * duty_percentage t⌋ ≤ ⌊(255:ℝ)⌋ := Int.floor_mono h1
    simpa using hm
  rw [fan_speed, rust_as_u8, hcast, MAX_SPEED, min_eq_right hf255, max_eq_right hf0]

/-- The concrete byte at `42` degrees: `⌊255 * 0.1⌋ = ⌊25.5⌋ = 25`. -/
lemma fan_speed_42 : fan_speed 42 = 25 := by
  rw [fan_speed_eq_floor, duty_eq_low (by norm_num) (by norm_num)]
  rw [show (255:ℝ) * 0.1 = 25.5 by norm_num]
  rw [Int.floor_eq_iff]
  norm_num

/-- The concrete byte at `30` degrees: `⌊255 * 0⌋ = 0`. -/
lemma fan_speed_30 : fan_speed 30 = 0 := by
  rw [fan_speed_eq_floor, duty_eq_off (by norm_num)]
  norm_num

/-- The concrete byte at `80` degrees: `⌊255 * 1⌋ = 255`. -/
lemma fan_speed_80 : fan_speed 80 = 255 := by
  rw [fan_speed_eq_floor, duty_eq_max (by norm_num)]
  norm_num

/-- On the curve branch the byte is at least `25`, in particular nonzero. -/
lemma fan_speed_curve_lb {t : ℝ} (h1 : 45 ≤ t) (h2 : t < 75) : 25 ≤ fan_speed t := by
  rw [fan_speed_eq_floor, duty_eq_curve h1 h2]
  have hlb := fan_curve_lb h1 h2.le
  rw [Int.le_floor]
  push_cast
  norm_num at hlb ⊢
  linarith

/-! ### Change detection -/

/-- A bus write is issued exactly when the new byte differs from the
stored one. -/
lemma writeStep_wrote_iff (fs old : ℤ) (busOk : Bool) :
    (writeStep fs old busOk).wrote = true ↔ fs ≠ old := by
  rw [writeStep]
  by_cases h : old ≠ fs
  · rw [if_pos h]
    cases busOk <;> simp <;> exact fun e => h e.symm
  · rw [if_neg h]
    push_neg at h
    simp [h]

/-- A successful write stores the new byte. -/
lemma writeStep_state_success (fs old : ℤ) (h : old ≠ fs) :
    (writeStep fs old true).state = fs := by
  rw [writeStep, if_pos h, if_pos rfl]

/-- A failed write leaves the stored byte unchanged. -/
lemma writeStep_state_failure (fs old : ℤ) (h : old ≠ fs) :
    (writeStep fs old false).state = old := by
  rw [writeStep, if_pos h]
  rfl

/-- When the byte is unchanged nothing is written and nothing is stored. -/
lemma writeStep_skip (fs old : ℤ) (busOk : Bool) (h : old = fs) :
    (writeStep fs old busOk).state = old ∧ (writeStep fs old busOk).wrote = false := by
  rw [writeStep, if_neg (by simp [h])]
  exact ⟨rfl, rfl⟩

/-- Unfolding one tick of the loop run. -/
lemma runDuties_cons (s d : ℤ) (rest : List ℤ) :
    runDuties s (d :: rest) =
      ⟨(runDuties (writeStep d s true).state rest).state,
        (writeStep d s true).wrote :: (runDuties (writeStep d s true).state rest).wroteFlags,
        (if (writeStep d s true).wrote then [d] else [])
          ++ (runDuties (writeStep d s true).state rest).written,
        d :: (runDuties (writeStep d s true).state rest).printed⟩ :=
  rfl

/-- The run over the test sequence from any stored value other than `25`:
writes at positions 1, 3, 5 with values `25, 60, 25`, and one printed line
per tick. -/
lemma runDuties_seq {s0 : ℤ} (h : s0 ≠ 25) :
    runDuties s0 [25, 25, 60, 60, 25] =
      ⟨25, [true, false, true, false, true], [25, 60, 25], [25, 25, 60, 60, 25]⟩ := by
  have e1 : writeStep 25 s0 true = ⟨25, true, some 25⟩ := by
    rw [writeStep, if_pos h, if_pos rfl]
  rw [runDuties_cons, e1]
  decide

/-! ### Claim theorems -/

/-- C1: the claim fails on the code. On a tick whose sensor content does
not parse, `get_cpu_temp` surfaces no error: it returns the substituted
fallback temperature `45` (from the text `45000` divided by `1000`), and
the loop body still executes (`tick` produces a result, it does not fail);
the same holds for a read error other than `PermissionDenied`/`NotFound`. -/
theorem parse_failure_substitutes_fallback :
    get_cpu_temp (.content none) = some 45
    ∧ (tick (.content none) 0 true).isSome = true
    ∧ (tick (.ioError .other) 0 true).isSome = true := by
  refine ⟨by norm_num [get_cpu_temp], ?_, ?_⟩ <;> simp [tick, get_cpu_temp]

/-- C2: a bus write is issued iff the new duty byte differs from the stored
one; the stored byte is updated to the new value exactly on a successful
write and kept unchanged on a failed one or when no write happens; on the
duty sequence `[25, 25, 60, 60, 25]` starting from any stored value other
than `25`, exactly three writes occur, at positions 1, 3, 5, writing
`25, 60, 25`. -/
theorem change_detection_invariant :
    (∀ fs old : ℤ, ∀ busOk : Bool,
        ((writeStep fs old busOk).wrote = true ↔ fs ≠ old)
        ∧ (old ≠ fs → (writeStep fs old true).state = fs)
        ∧ (old ≠ fs → (writeStep fs old false).state = old)
        ∧ (old = fs →
            (writeStep fs old busOk).state = old ∧ (writeStep fs old busOk).wrote = false))
    ∧ (∀ s0 : ℤ, s0 ≠ 25 →
        (runDuties s0 [25, 25, 60, 60, 25]).wroteFlags = [true, false, true, false, true]
        ∧ (runDuties s0 [25, 25, 60, 60, 25]).written = [25, 60, 25]) := by
  constructor
  · intro fs old busOk
    exact ⟨writeStep_wrote_iff fs old busOk, writeStep_state_success fs old,
      writeStep_state_failure fs old, writeStep_skip fs old busOk⟩
  · intro s0 h
    rw [runDuties_seq h]
    exact ⟨rfl, rfl⟩

/-- Witness for the change-detection invariant at concrete inputs. -/
theorem change_detection_invariant_witness :
    ((writeStep 60 25 true).wrote = true ↔ (60:ℤ) ≠ 25)
    ∧ (writeStep 60 25 true).state = 60
    ∧ ((runDuties 0 [25, 25, 60, 60, 25]).wroteFlags = [true, false, true, false, true]
        ∧ (runDuties 0 [25, 25, 60, 60, 25]).written = [25, 60, 25]) :=
  ⟨(change_detection_invariant.1 60 25 true).1,
    (change_detection_invariant.1 60 25 true).2.1 (by decide),
    change_detection_invariant.2 0 (by decide)⟩

/-- C3 counterexample: for the duty sequence `[25, 25, 60, 60, 25]` the
loop prints five status lines — one per tick — where the claim requires
exactly three. -/
theorem status_lines_five :
    (runDuties 0 [25, 25, 60, 60, 25]).printed.length = 5 := by
  decide

/-- C3 amended: a status line is printed on every tick, not once per change:
the printed duty values are exactly the computed duty sequence. -/
theorem status_line_every_tick (s0 : ℤ) (ds : List ℤ) :
    (runDuties s0 ds).printed = ds := by
  induction ds generalizing s0 with
  | nil => rfl
  | cons d rest ih => simp [runDuties_cons, ih]

/-- C4: on `45 ≤ t < 75`, inclusive at the `45` boundary, the percentage is
exactly the specification formula: the halved sum of the cosine ease-in
term `0.5 * (1 - sin (pi * t / 50))` and the linear ramp
`FAN_LOW + FAN_GAIN * min (t - MIN_TEMP) MAX_TEMP`. -/
theorem duty_matches_spec_curve (t : ℝ) (h1 : 45 ≤ t) (h2 : t < 75) :
    duty_percentage t = duty_curve_spec t := by
  rw [duty_eq_curve h1 h2, fan_curve, duty_curve_spec]
  ring

/-- Witness: at the boundary temperature `45` the curve branch applies. -/
theorem duty_matches_spec_curve_witness :
    (45:ℝ) ≤ 45 ∧ (45:ℝ) < 75 ∧ duty_percentage 45 = duty_curve_spec 45 :=
  ⟨le_refl 45, by norm_num, duty_matches_spec_curve 45 (le_refl 45) (by norm_num)⟩

/-- C5: the flat branches of the percentage: `0` below `40`, `0.1` on
`[40, 45)`, and `1` at and above `75`. -/
theorem duty_flat_branches :
    (∀ t : ℝ, t < 40 → duty_percentage t = 0)
    ∧ (∀ t : ℝ, 40 ≤ t → t < 45 → duty_percentage t = 0.1)
    ∧ (∀ t : ℝ, 75 ≤ t → duty_percentage t = 1) :=
  ⟨fun _ h => duty_eq_off h, fun _ h1 h2 => duty_eq_low h1 h2, fun _ h => duty_eq_max h⟩

/-- Witness for the flat branches at `30`, `42` and `80` degrees. -/
theorem duty_flat_branches_witness :
    duty_percentage 30 = 0 ∧ duty_percentage 42 = 0.1 ∧ duty_percentage 80 = 1 :=
  ⟨duty_flat_branches.1 30 (by norm_num),
    duty_flat_branches.2.1 42 (by norm_num) (by norm_num),
    duty_flat_branches.2.2 80 (by norm_num)⟩

/-- C6: the duty percentage is monotone non-decreasing over the whole
temperature domain, across the piecewise boundaries and the blended curve. -/
theorem duty_percentage_monotone (t1 t2 : ℝ) (h : t1 < t2) :
    duty_percentage t1 ≤ duty_percentage t2 :=
  duty_mono h.le

/-- Witness: monotonicity applied across the branches, from `30` to `80`. -/
theorem duty_percentage_monotone_witness :
    (30:ℝ) < 80 ∧ duty_percentage 30 ≤ duty_percentage 80 :=
  ⟨by norm_num, duty_percentage_monotone 30 80 (by norm_num)⟩

/-- C7: the byte-level duty is the floor of `255` times the percentage, the
percentage always lies in `[0, 1]`, and the examples `30 ↦ 0`, `42 ↦ 25`,
`80 ↦ 255` hold. -/
theorem fan_speed_floor_spec :
    (∀ t : ℝ, fan_speed t = ⌊(255:ℝ) * duty_percentage t⌋
        ∧ 0 ≤ duty_percentage t ∧ duty_percentage t ≤ 1)
    ∧ fan_speed 30 = 0 ∧ fan_speed 42 = 25 ∧ fan_speed 80 = 255 :=
  ⟨fun t => ⟨fan_speed_eq_floor t, duty_nonneg t, duty_le_one t⟩,
    fan_speed_30, fan_speed_42, fan_speed_80⟩

/-- C8: the claim fails on the code. A tick with unparsable sensor content
still attempts a bus write: the tick runs with the substituted temperature
`45`, whose duty byte differs from the stored value `0`, so the guarded
write fires. -/
theorem sensor_failure_still_writes :
    ∃ r : TickResult, tick (.content none) 0 true = some r ∧ r.wrote = true := by
  refine ⟨handle_fan_speed ((45000 / 1000 : ℚ) : ℝ) 0 true, rfl, ?_⟩
  have h45 : ((45000 / 1000 : ℚ) : ℝ) = (45:ℝ) := by norm_num
  rw [handle_fan_speed, h45, writeStep_wrote_iff]
  have h := fan_speed_curve_lb (le_refl (45:ℝ)) (by norm_num)
  omega

/-- C10: `get_cpu_temp` never hands an error value to its caller: an
unparsable content or a read error other than `PermissionDenied`/`NotFound`
yields exactly `45`; it panics (diverges) exactly on `PermissionDenied` and
`NotFound`; a successful file read always produces a value. -/
theorem get_cpu_temp_total_fallback :
    get_cpu_temp (.content none) = some 45
    ∧ get_cpu_temp (.ioError .other) = some 45
    ∧ (∀ k, get_cpu_temp (.ioError k) = none ↔ (k = .permissionDenied ∨ k = .notFound))
    ∧ (∀ p, (get_cpu_temp (.content p)).isSome = true) := by
  refine ⟨by norm_num [get_cpu_temp], by norm_num [get_cpu_temp], ?_, ?_⟩
  · intro k
    cases k <;> simp [get_cpu_temp]
  · intro p
    cases p <;> rfl

end CM4Fan
